import Mathlib

/-!
Verification of the bedtime-story generation pipeline.

Shallow embedding of the pure/decision fragments of the story pipeline:
the data model (`models.py`), the judge's decision functions (`judge.py`),
the storyteller's response parsing (`storyteller.py`), and the workflow
orchestrator's revision loop and feedback classification
(`story_workflow.py`).  Calls to the hosted language model are modelled by
passing the raw response text (or, for the judge, the outcome of JSON
parsing) as an explicit argument; everything downstream of a response is
embedded faithfully from the source.

Python-to-Lean conventions used throughout:
* Python string methods are embedded as code-point-level functions
  (`pyStrip`, `pySplitChar`, `pyStartsWith`, `pyEndsWith`, `pyLower`,
  `pyDrop`, `pyDropRight`, `pyJoin`) defined below;
* Python truthiness of an optional string (`if user_feedback:`) is `false`
  exactly on `None` and the empty string;
* a Python exception that a function deliberately lets escape is an
  `Except.error`.
-/

/-! ## Data model (`models.py`) -/

/-- The `StoryCategory` enum of `models.py`: the seven fixed story genres. -/
inductive StoryCategory where
  | adventure
  | friendship
  | magical
  | animal
  | educational
  | mystery
  | family
deriving DecidableEq, Repr

/-- The `Story` model of `models.py`. -/
structure Story where
  title : String
  content : String
  category : StoryCategory
  age_appropriate : Bool
  moral_lesson : Option String
  characters : List String
deriving DecidableEq, Repr

/-- The `JudgeEvaluation` model of `models.py`: five 1-10 scores, three text
lists and a revision flag.  Scores are `Int` here; the `ge=1, le=10`
pydantic bounds are enforced at construction time inside
`evaluate_story` below. -/
structure JudgeEvaluation where
  overall_score : Int
  age_appropriateness : Int
  engagement_level : Int
  educational_value : Int
  creativity : Int
  strengths : List String
  areas_for_improvement : List String
  suggestions : List String
  needs_revision : Bool
deriving DecidableEq, Repr

/-! ## Python string primitives

Python strings are sequences of code points, so its string methods are
embedded as `List Char` computations (Lean's byte-oriented builtins such
as `String.trim` are not used).  Whitespace is `Char.isWhitespace`, which
covers every whitespace character occurring in this pipeline's strings. -/

/-- Python `str.strip()`: remove leading and trailing whitespace. -/
def pyStrip (s : String) : String :=
  ⟨((s.data.dropWhile Char.isWhitespace).reverse.dropWhile
    Char.isWhitespace).reverse⟩

/-- Python `str.startswith(pre)`. -/
def pyStartsWith (s pre : String) : Bool :=
  pre.data.isPrefixOf s.data

/-- Python `str.endswith(suf)`. -/
def pyEndsWith (s suf : String) : Bool :=
  suf.data.isSuffixOf s.data

/-- Slicing `s[n:]`. -/
def pyDrop (s : String) (n : Nat) : String :=
  ⟨s.data.drop n⟩

/-- Slicing `s[:-n]` (used as `s[1:-1]` composed with `pyDrop`). -/
def pyDropRight (s : String) (n : Nat) : String :=
  ⟨s.data.take (s.data.length - n)⟩

/-- Python `str.lower()` (code-point-wise). -/
def pyLower (s : String) : String :=
  ⟨s.data.map Char.toLower⟩

/-- Accumulator loop behind `str.split(sep)` for a one-character
separator: split at every occurrence, keeping empty pieces. -/
def pySplitCharAux (sep : Char) : List Char → List Char → List String
  | [], acc => [⟨acc.reverse⟩]
  | c :: cs, acc =>
    if c = sep then ⟨acc.reverse⟩ :: pySplitCharAux sep cs []
    else pySplitCharAux sep cs (c :: acc)

/-- Python `str.split(sep)` for a one-character separator (the pipeline only
splits on `"\n"` and `","`). -/
def pySplitChar (s : String) (sep : Char) : List String :=
  pySplitCharAux sep s.data []

/-- Python `sep.join(parts)`. -/
def pyJoin (sep : String) : List String → String
  | [] => ""
  | [part] => part
  | part :: rest => part ++ sep ++ pyJoin sep rest

/-! ## Judge decision functions (`judge.py`) -/

/-- Embedding of `JudgeAgent.should_revise` (judge.py lines 108-121): revise if any
critical score is below the threshold, or the evaluation is explicitly
flagged, or the overall score is below 7.  A pure decision function over
the evaluation value. -/
def should_revise (evaluation : JudgeEvaluation) (min_threshold : Int) : Bool :=
  let critical_scores := [evaluation.overall_score,
    evaluation.age_appropriateness, evaluation.engagement_level]
  evaluation.needs_revision ||
    critical_scores.any (fun score => score < min_threshold) ||
    decide (evaluation.overall_score < 7)

/-- C2: with the default threshold 6, `should_revise` is true iff the
needs-revision flag is set, or one of {overall, age-appropriateness,
engagement} is below 6, or overall < 7; equivalently it is false exactly
when the flag is clear, overall ≥ 7, age-appropriateness ≥ 6 and
engagement ≥ 6. -/
theorem should_revise_characterization (evaluation : JudgeEvaluation) :
    (should_revise evaluation 6 = true ↔
      (evaluation.needs_revision = true ∨
        evaluation.overall_score < 6 ∨
        evaluation.age_appropriateness < 6 ∨
        evaluation.engagement_level < 6 ∨
        evaluation.overall_score < 7)) ∧
    (should_revise evaluation 6 = false ↔
      (evaluation.needs_revision = false ∧
        7 ≤ evaluation.overall_score ∧
        6 ≤ evaluation.age_appropriateness ∧
        6 ≤ evaluation.engagement_level)) := by
  obtain ⟨o, a, e, d, c, s1, s2, s3, nr⟩ := evaluation
  cases nr <;> simp [should_revise] <;> omega

/-- Conditional-append normalization: pulling the unchanged part of the
accumulator out of a conditional append. -/
theorem ite_append_shift {α : Type} (c : Prop) [Decidable c] (l xs : List α) :
    (if c then l ++ xs else l) = l ++ (if c then xs else []) := by
  split_ifs <;> simp

/-- Variant of `ite_append_shift` for a two-step conditional append. -/
theorem ite_append_shift2 {α : Type} (c : Prop) [Decidable c] (l xs ys : List α) :
    (if c then (l ++ xs) ++ ys else l) = l ++ (if c then xs ++ ys else []) := by
  split_ifs <;> simp

/-! ## Revision guidance (`judge.py` lines 123-154) -/

/-- Embedding of `JudgeAgent.generate_revision_guidance`: builds `guidance_parts` by
appending one fixed directive per low score, then the bulleted suggestion
list (with its header line) when non-empty, then the bulleted
improvement-area list (with its header line) when non-empty, and joins the
parts with newlines. -/
def generate_revision_guidance (evaluation : JudgeEvaluation) : String :=
  let guidance_parts : List String := []
  let guidance_parts := if evaluation.overall_score < 7 then
    guidance_parts ++ ["Focus on improving overall story structure and flow."]
    else guidance_parts
  let guidance_parts := if evaluation.age_appropriateness < 8 then
    guidance_parts ++ ["Ensure language and themes are fully appropriate for the target age group."]
    else guidance_parts
  let guidance_parts := if evaluation.engagement_level < 7 then
    guidance_parts ++ ["Make the story more engaging with vivid descriptions and compelling characters."]
    else guidance_parts
  let guidance_parts := if evaluation.educational_value < 7 then
    guidance_parts ++ ["Strengthen the moral lesson or educational value of the story."]
    else guidance_parts
  let guidance_parts := if evaluation.creativity < 6 then
    guidance_parts ++ ["Add more creative and imaginative elements to make the story unique."]
    else guidance_parts
  let guidance_parts := if evaluation.suggestions ≠ [] then
    guidance_parts ++ ["Specific improvements to make:"] ++
      evaluation.suggestions.map (fun suggestion => "- " ++ suggestion)
    else guidance_parts
  let guidance_parts := if evaluation.areas_for_improvement ≠ [] then
    guidance_parts ++ ["Areas needing attention:"] ++
      evaluation.areas_for_improvement.map (fun area => "- " ++ area)
    else guidance_parts
  pyJoin "\n" guidance_parts

/-- Spec-side restatement of the guidance text (§4.2 of the spec): a
newline-joined concatenation of one fixed sentence per dimension below its
own cutoff (overall<7, age-appropriateness<8, engagement<7, educational<7,
creativity<6), followed by the raw suggestion list and then the
improvement-area list, each item bullet-prefixed (the code places a fixed
header line before each non-empty list). -/
def revision_guidance_spec (evaluation : JudgeEvaluation) : String :=
  pyJoin "\n" (
    (if evaluation.overall_score < 7 then
      ["Focus on improving overall story structure and flow."] else []) ++
    (if evaluation.age_appropriateness < 8 then
      ["Ensure language and themes are fully appropriate for the target age group."] else []) ++
    (if evaluation.engagement_level < 7 then
      ["Make the story more engaging with vivid descriptions and compelling characters."] else []) ++
    (if evaluation.educational_value < 7 then
      ["Strengthen the moral lesson or educational value of the story."] else []) ++
    (if evaluation.creativity < 6 then
      ["Add more creative and imaginative elements to make the story unique."] else []) ++
    (if evaluation.suggestions ≠ [] then
      "Specific improvements to make:" ::
        evaluation.suggestions.map (fun suggestion => "- " ++ suggestion) else []) ++
    (if evaluation.areas_for_improvement ≠ [] then
      "Areas needing attention:" ::
        evaluation.areas_for_improvement.map (fun area => "- " ++ area) else []))

/-- C7: `generate_revision_guidance` is a pure transformation whose output
is exactly the newline-joined sequence described by the spec: one fixed
sentence per score dimension below its dimension-specific cutoff, then the
bullet-prefixed suggestion list, then the bullet-prefixed improvement-area
list. -/
theorem generate_revision_guidance_matches_spec (evaluation : JudgeEvaluation) :
    generate_revision_guidance evaluation = revision_guidance_spec evaluation := by
  simp only [generate_revision_guidance, revision_guidance_spec,
    ite_append_shift2, ite_append_shift]
  simp

/-! ## Feedback classification (`story_workflow.py` lines 135-162) -/

/-- The parsing half of `StoryWorkflow._classify_feedback`: the model's
response is normalized (`strip` then `lower`) and matched against the two
literal labels; anything else defaults to `"story_modification"`. -/
def classify_feedback (response : String) : String :=
  let classification := pyLower (pyStrip response)
  if classification = "story_modification" ∨ classification = "general_chat" then
    classification
  else "story_modification"

/-- C8: classification always yields a defined result: it returns the chat
label exactly when the normalized response equals it, and every other
response (including the modification label itself and any junk output)
yields the modification label. -/
theorem classify_feedback_total (response : String) :
    classify_feedback response =
      (if pyLower (pyStrip response) = "general_chat" then "general_chat"
        else "story_modification") := by
  unfold classify_feedback
  by_cases h : pyLower (pyStrip response) = "general_chat"
  · simp [h]
  · by_cases h2 : pyLower (pyStrip response) = "story_modification" <;> simp [h, h2]

/-! ## The automatic revision loop (`story_workflow.py` lines 100-113) -/

/-- Embedding of `StoryWorkflow._should_revise`: the conditional-edge selector at the
EVALUATE node.  Returns the route label `"finalize"` when
`revision_count >= 2`; otherwise routes on `Judge.should_revise` with its
default threshold. -/
def should_revise_route (revision_count : Nat) (evaluation : JudgeEvaluation) : String :=
  if revision_count ≥ 2 then "finalize"
  else if should_revise evaluation 6 then "revise"
  else "finalize"

theorem should_revise_route_of_ge (revision_count : Nat)
    (evaluation : JudgeEvaluation) (h : 2 ≤ revision_count) :
    should_revise_route revision_count evaluation = "finalize" := by
  unfold should_revise_route
  rw [if_pos h]

theorem should_revise_route_lt {revision_count : Nat} {evaluation : JudgeEvaluation}
    (h : should_revise_route revision_count evaluation = "revise") :
    revision_count < 2 := by
  by_contra hge
  push_neg at hge
  rw [should_revise_route_of_ge _ _ hge] at h
  exact absurd h (by decide)

theorem should_revise_route_cases (revision_count : Nat)
    (evaluation : JudgeEvaluation) :
    should_revise_route revision_count evaluation = "revise" ∨
      should_revise_route revision_count evaluation = "finalize" := by
  unfold should_revise_route
  split_ifs <;> simp

/-- The revision loop of the compiled graph: from the EVALUATE node with
the given `revision_count`, follow the `"revise"` edge (which increments
the count by 1 and re-evaluates) as long as `_should_revise` selects it,
and stop at FINALIZE otherwise.  `evals k` is the evaluation produced by
the judge at the EVALUATE visit that follows `k` revisions; the loop
returns the revision count on arrival at FINALIZE. -/
def runRevisionLoop (evals : Nat → JudgeEvaluation) (revision_count : Nat) : Nat :=
  if h : should_revise_route revision_count (evals revision_count) = "revise" then
    runRevisionLoop evals (revision_count + 1)
  else revision_count
termination_by 2 - revision_count
decreasing_by
  have := should_revise_route_lt h
  omega

theorem runRevisionLoop_step (evals : Nat → JudgeEvaluation) (c : Nat)
    (h : should_revise_route c (evals c) = "revise") :
    runRevisionLoop evals c = runRevisionLoop evals (c + 1) := by
  rw [runRevisionLoop]
  simp [h]

theorem runRevisionLoop_exit (evals : Nat → JudgeEvaluation) (c : Nat)
    (h : ¬ should_revise_route c (evals c) = "revise") :
    runRevisionLoop evals c = c := by
  rw [runRevisionLoop]
  simp [h]

theorem runRevisionLoop_le (evals : Nat → JudgeEvaluation) :
    ∀ c, c ≤ 2 → runRevisionLoop evals c ≤ 2 := by
  have H : ∀ n c, 2 - c ≤ n → c ≤ 2 → runRevisionLoop evals c ≤ 2 := by
    intro n
    induction n with
    | zero =>
      intro c hn hc
      have hc2 : c = 2 := by omega
      subst hc2
      rw [runRevisionLoop_exit]
      rw [should_revise_route_of_ge _ _ (by omega)]
      decide
    | succ n ih =>
      intro c hn hc
      by_cases h : should_revise_route c (evals c) = "revise"
      · have hlt := should_revise_route_lt h
        rw [runRevisionLoop_step evals c h]
        exact ih (c + 1) (by omega) (by omega)
      · rw [runRevisionLoop_exit evals c h]
        exact hc
  intro c hc
  exact H 2 c (by omega) hc

theorem runRevisionLoop_exact (evals : Nat → JudgeEvaluation)
    (hall : ∀ k, should_revise (evals k) 6 = true) :
    ∀ c, c ≤ 2 → runRevisionLoop evals c = 2 := by
  have H : ∀ n c, 2 - c ≤ n → c ≤ 2 → runRevisionLoop evals c = 2 := by
    intro n
    induction n with
    | zero =>
      intro c hn hc
      have hc2 : c = 2 := by omega
      subst hc2
      rw [runRevisionLoop_exit]
      rw [should_revise_route_of_ge _ _ (by omega)]
      decide
    | succ n ih =>
      intro c hn hc
      rcases Nat.lt_or_ge c 2 with hlt | hge
      · have hroute : should_revise_route c (evals c) = "revise" := by
          unfold should_revise_route
          rw [if_neg (by omega), if_pos (hall c)]
        rw [runRevisionLoop_step evals c hroute]
        exact ih (c + 1) (by omega) (by omega)
      · have hc2 : c = 2 := by omega
        subst hc2
        rw [runRevisionLoop_exit]
        rw [should_revise_route_of_ge _ _ (by omega)]
        decide
  intro c hc
  exact H 2 c (by omega) hc

theorem runRevisionLoop_final_route (evals : Nat → JudgeEvaluation) :
    ∀ c, should_revise_route (runRevisionLoop evals c)
      (evals (runRevisionLoop evals c)) = "finalize" := by
  have H : ∀ n c, 2 - c ≤ n → should_revise_route (runRevisionLoop evals c)
      (evals (runRevisionLoop evals c)) = "finalize" := by
    intro n
    induction n with
    | zero =>
      intro c hn
      have hge : 2 ≤ c := by omega
      have hx : ¬ should_revise_route c (evals c) = "revise" := by
        rw [should_revise_route_of_ge _ _ hge]
        decide
      rw [runRevisionLoop_exit evals c hx]
      rw [should_revise_route_of_ge _ _ hge]
    | succ n ih =>
      intro c hn
      by_cases h : should_revise_route c (evals c) = "revise"
      · have hlt := should_revise_route_lt h
        rw [runRevisionLoop_step evals c h]
        exact ih (c + 1) (by omega)
      · rw [runRevisionLoop_exit evals c h]
        rcases should_revise_route_cases c (evals c) with hr | hf
        · exact absurd hr h
        · exact hf
  intro c
  exact H 2 c (by omega)

/-- C1: the automatic refinement loop performs at most 2 revision passes.
At the EVALUATE decision a count of 2 or more always routes to FINALIZE
regardless of the evaluation; every run ends at FINALIZE with a final
revision count of at most 2; and when every evaluation demands revision
(`needs_revision = true` throughout) the run still terminates at FINALIZE
with exactly 2 revisions. -/
theorem revision_loop_bounded :
    (∀ (revision_count : Nat) (evaluation : JudgeEvaluation),
      2 ≤ revision_count →
        should_revise_route revision_count evaluation = "finalize") ∧
    (∀ evals : Nat → JudgeEvaluation, runRevisionLoop evals 0 ≤ 2) ∧
    (∀ evals : Nat → JudgeEvaluation,
      should_revise_route (runRevisionLoop evals 0)
        (evals (runRevisionLoop evals 0)) = "finalize") ∧
    (∀ evals : Nat → JudgeEvaluation, (∀ k, (evals k).needs_revision = true) →
      runRevisionLoop evals 0 = 2) := by
  refine ⟨should_revise_route_of_ge, ?_, ?_, ?_⟩
  · intro evals
    exact runRevisionLoop_le evals 0 (by omega)
  · intro evals
    exact runRevisionLoop_final_route evals 0
  · intro evals hall
    refine runRevisionLoop_exact evals ?_ 0 (by omega)
    intro k
    simp [should_revise, hall k]

/-- An evaluation whose flag always demands revision. -/
def alwaysReviseEval : JudgeEvaluation :=
  { overall_score := 9, age_appropriateness := 9, engagement_level := 9,
    educational_value := 9, creativity := 9, strengths := [],
    areas_for_improvement := [], suggestions := [], needs_revision := true }

/-- Witness for C1: under an evaluator that always sets
`needs_revision = true`, the loop finalizes after exactly 2 revisions. -/
theorem revision_loop_bounded_witness :
    runRevisionLoop (fun _ => alwaysReviseEval) 0 = 2 :=
  revision_loop_bounded.2.2.2 (fun _ => alwaysReviseEval) (fun _ => rfl)

/-! ## Title/body parsing (`storyteller.py` lines 158-173 and 241-256) -/

/-- The title-candidate normalization applied to the (stripped) first line
of a raw model response: a leading/trailing quote pair is removed, or
otherwise a leading `Title:` marker is removed (with a further strip);
the two cases are an `if`/`elif`, hence mutually exclusive. -/
def stripTitleMarkers (title : String) : String :=
  if pyStartsWith title "\"" ∧ pyEndsWith title "\"" then
    pyDropRight (pyDrop title 1) 1
  else if pyStartsWith title "Title:" then
    pyStrip (pyDrop title 6)
  else title

/-- Loop condition of the body scan: the line is non-blank after stripping
and does not itself start with `Title:`. -/
def isStoryLine (line : String) : Bool :=
  pyStrip line ≠ "" && !(pyStartsWith line "Title:")

/-- The `for i, line in enumerate(lines[1:], 1)` scan: first index `i`
(counting from the given start value) whose line satisfies `isStoryLine`,
or `none` when no line does. -/
def findStoryLine (lines : List String) (i : Nat) : Option Nat :=
  match lines with
  | [] => none
  | line :: rest =>
    if isStoryLine line then some i else findStoryLine rest (i + 1)

/-- Title/body extraction shared verbatim by `generate_story` and
`revise_story`: strip and split the raw response into lines, normalize
line 1 into the title, find where the story body begins (index defaults
to 1 when no subsequent line qualifies), and rejoin/trim the remaining
lines into the body. -/
def parseTitleBody (story_content : String) : String × String :=
  let lines := pySplitChar (pyStrip story_content) '\n'
  let title := stripTitleMarkers (pyStrip (lines.headD ""))
  let story_start_idx := (findStoryLine (lines.drop 1) 1).getD 1
  let content := pyStrip (pyJoin "\n" (lines.drop story_start_idx))
  (title, content)

theorem findStoryLine_some (lines : List String) (i j : Nat)
    (h : findStoryLine lines i = some j) :
    i ≤ j ∧ j - i < lines.length ∧
      isStoryLine (lines.getD (j - i) "") = true ∧
      (∀ k, k < j - i → isStoryLine (lines.getD k "") = false) := by
  induction lines generalizing i with
  | nil => simp [findStoryLine] at h
  | cons line rest ih =>
    by_cases hl : isStoryLine line
    · simp [findStoryLine, hl] at h
      subst h
      refine ⟨Nat.le_refl i, by simp, by simpa using hl, ?_⟩
      intro k hk
      omega
    · simp only [findStoryLine, hl, if_neg, Bool.false_eq_true, if_false] at h
      obtain ⟨h1, h2, h3, h4⟩ := ih (i + 1) h
      refine ⟨by omega, by simp; omega, ?_, ?_⟩
      · have : j - i = (j - (i + 1)) + 1 := by omega
        rw [this]
        simpa using h3
      · intro k hk
        match k with
        | 0 => simpa using eq_false_of_ne_true hl
        | Nat.succ k' =>
          have : k' < j - (i + 1) := by omega
          simpa using h4 k' this

/-- C6: the title/body parsing rule.  Line 1 (stripped) is always the
title candidate, normalized by `stripTitleMarkers`; when some subsequent
line is non-blank and does not start with `Title:`, the body is every
line from the first such index onward, rejoined and trimmed; and the
three spec examples for the title forms (quoted, `Title:`-marked, bare)
all parse as stated. -/
theorem parse_title_body_rule :
    (∀ raw : String, (parseTitleBody raw).1 =
      stripTitleMarkers (pyStrip ((pySplitChar (pyStrip raw) '\n').headD ""))) ∧
    (∀ (raw : String) (j : Nat),
      findStoryLine ((pySplitChar (pyStrip raw) '\n').drop 1) 1 = some j →
      1 ≤ j ∧
      isStoryLine (((pySplitChar (pyStrip raw) '\n').drop 1).getD (j - 1) "") = true ∧
      (∀ k, k < j - 1 →
        isStoryLine (((pySplitChar (pyStrip raw) '\n').drop 1).getD k "") = false) ∧
      (parseTitleBody raw).2 =
        pyStrip (pyJoin "\n" ((pySplitChar (pyStrip raw) '\n').drop j))) ∧
    parseTitleBody "\"The Brave Mouse\"\n\nOnce upon a time." =
      ("The Brave Mouse", "Once upon a time.") ∧
    parseTitleBody "Title: The Brave Mouse\n\nOnce upon a time." =
      ("The Brave Mouse", "Once upon a time.") ∧
    parseTitleBody "The Brave Mouse\n\nOnce upon a time." =
      ("The Brave Mouse", "Once upon a time.") := by
  refine ⟨fun raw => rfl, ?_, by decide, by decide, by decide⟩
  intro raw j h
  obtain ⟨h1, h2, h3, h4⟩ := findStoryLine_some _ _ _ h
  refine ⟨h1, h3, h4, ?_⟩
  simp only [parseTitleBody, h, Option.getD_some]

/-- Witness for C6: on a response with a bare title line, a blank line
and a body line, the scan finds the body at index 2 and the parsed body
is the rejoined tail from that index. -/
theorem parse_title_body_rule_witness :
    findStoryLine ((pySplitChar (pyStrip "The Hero\n\nOnce there was a hero.") '\n').drop 1)
      1 = some 2 ∧
    (parseTitleBody "The Hero\n\nOnce there was a hero.").2 =
      pyStrip (pyJoin "\n"
        ((pySplitChar (pyStrip "The Hero\n\nOnce there was a hero.") '\n').drop 2)) :=
  ⟨by decide,
    (parse_title_body_rule.2.1 "The Hero\n\nOnce there was a hero." 2 (by decide)).2.2.2⟩

/-- C9: quote-pair stripping and `Title:`-marker stripping are mutually
exclusive (`if`/`elif`): on a title candidate wrapped in a quote pair,
only the quote pair is removed, so a quoted `Title:`-marked line keeps
its marker, both in `stripTitleMarkers` and through `parseTitleBody`. -/
theorem strip_title_markers_quote_exclusive :
    (∀ title : String, pyStartsWith title "\"" = true →
      pyEndsWith title "\"" = true →
      stripTitleMarkers title = pyDropRight (pyDrop title 1) 1) ∧
    stripTitleMarkers "\"Title: The Brave Mouse\"" = "Title: The Brave Mouse" ∧
    (parseTitleBody "\"Title: The Brave Mouse\"\n\nOnce upon a time.").1 =
      "Title: The Brave Mouse" := by
  refine ⟨?_, by decide, by decide⟩
  intro title h1 h2
  unfold stripTitleMarkers
  rw [if_pos ⟨h1, h2⟩]

/-- Witness for C9: a concrete quoted, `Title:`-marked first line, with
both quote hypotheses discharged. -/
theorem strip_title_markers_quote_exclusive_witness :
    pyStartsWith "\"Title: A Mouse\"" "\"" = true ∧
    pyEndsWith "\"Title: A Mouse\"" "\"" = true ∧
    stripTitleMarkers "\"Title: A Mouse\"" =
      pyDropRight (pyDrop "\"Title: A Mouse\"" 1) 1 :=
  ⟨by decide, by decide,
    strip_title_markers_quote_exclusive.1 "\"Title: A Mouse\"" (by decide) (by decide)⟩

/-! ## Storyteller (`storyteller.py`) -/

/-- The `StoryRequest` model of `models.py`. -/
structure StoryRequest where
  request : String
  age_range : Int × Int
  length_preference : String
  category : Option StoryCategory
deriving DecidableEq, Repr

/-- The `StoryCategory(...)` enum constructor: the string-to-category
lookup, `none` for the `ValueError` case. -/
def categoryFromString : String → Option StoryCategory
  | "adventure" => some StoryCategory.adventure
  | "friendship" => some StoryCategory.friendship
  | "magical" => some StoryCategory.magical
  | "animal" => some StoryCategory.animal
  | "educational" => some StoryCategory.educational
  | "mystery" => some StoryCategory.mystery
  | "family" => some StoryCategory.family
  | _ => none

/-- Parsing half of `StorytellerAgent.categorize_request` (storyteller.py
lines 28-49): normalize the response and construct the enum value,
defaulting to adventure on `ValueError`. -/
def categorize_request (response : String) : StoryCategory :=
  match categoryFromString (pyLower (pyStrip response)) with
  | some category => category
  | none => StoryCategory.adventure

/-- Parsing half of `StorytellerAgent._extract_characters` (storyteller.py
lines 190-199): split the response on commas, strip each piece, drop the
empty ones. -/
def parseCharacters (response : String) : List String :=
  ((pySplitChar response ',').map (fun char => pyStrip char)).filter
    (fun char => char ≠ "")

/-- Embedding of `StorytellerAgent.generate_story` (storyteller.py lines 106-188),
parameterized by the four model responses it consumes (categorization,
story text, character list, moral lesson).  The category is taken from
the request when set (the request's optional category is falsy in Python
exactly when it is `None`), title and body come from `parseTitleBody`,
and the age-appropriateness flag is provisionally `true`. -/
def generate_story (story_request : StoryRequest)
    (categorizeResponse storyResponse charactersResponse moralResponse : String) :
    Story :=
  let category := match story_request.category with
    | some category => category
    | none => categorize_request categorizeResponse
  let parsed := parseTitleBody storyResponse
  { title := parsed.1, content := parsed.2, category := category,
    age_appropriate := true,
    moral_lesson := some (pyStrip moralResponse),
    characters := parseCharacters charactersResponse }

/-- Embedding of `StorytellerAgent.revise_story` (storyteller.py lines 211-269),
parameterized by the three model responses it consumes (revised story
text, character list, moral lesson).  Title and body are parsed exactly
as in `generate_story`; the category is copied unchanged from the input
story. -/
def revise_story (original_story : Story) (feedback : String)
    (reviseResponse charactersResponse moralResponse : String) : Story :=
  let parsed := parseTitleBody reviseResponse
  { title := parsed.1, content := parsed.2,
    category := original_story.category,
    age_appropriate := true,
    moral_lesson := some (pyStrip moralResponse),
    characters := parseCharacters charactersResponse }

/-- C5: revising a story preserves its category unconditionally, for
every input story, feedback text and model response. -/
theorem revise_story_preserves_category (original_story : Story)
    (feedback reviseResponse charactersResponse moralResponse : String) :
    (revise_story original_story feedback reviseResponse charactersResponse
      moralResponse).category = original_story.category := rfl

/-- C10: title/body parsing is total on degenerate shapes: when the
trimmed response is a single line (which also covers a title line
followed only by blank lines, since trailing blank lines are removed by
the leading strip), the generated story has empty content and the title
is still extracted from that line. -/
theorem generate_story_degenerate_response :
    (∀ (story_request : StoryRequest)
      (categorizeResponse charactersResponse moralResponse raw t : String),
      pySplitChar (pyStrip raw) '\n' = [t] →
      (generate_story story_request categorizeResponse raw charactersResponse
        moralResponse).content = "" ∧
      (generate_story story_request categorizeResponse raw charactersResponse
        moralResponse).title = stripTitleMarkers (pyStrip t)) ∧
    parseTitleBody "The Brave Mouse\n \n\t\n" = ("The Brave Mouse", "") := by
  refine ⟨?_, by decide⟩
  intro story_request categorizeResponse charactersResponse moralResponse raw t h
  constructor
  · show (parseTitleBody raw).2 = ""
    simp only [parseTitleBody, h]
    rfl
  · show (parseTitleBody raw).1 = stripTitleMarkers (pyStrip t)
    simp only [parseTitleBody, h, List.headD_cons]

/-- Witness for C10: a concrete one-line response produces an empty body
through the full generation path. -/
theorem generate_story_degenerate_response_witness :
    pySplitChar (pyStrip "The Brave Mouse") '\n' = ["The Brave Mouse"] ∧
    (generate_story ⟨"a mouse story", (5, 10), "short", none⟩ "animal"
      "The Brave Mouse" "a mouse" "Be brave.").content = "" :=
  ⟨by decide,
    (generate_story_degenerate_response.1 ⟨"a mouse story", (5, 10), "short", none⟩
      "animal" "a mouse" "Be brave." "The Brave Mouse" "The Brave Mouse"
      (by decide)).1⟩

/-! ## The REVISE node (`story_workflow.py` lines 164-192) -/

/-- The `UserFeedback` model of `models.py`. -/
structure UserFeedback where
  feedback_type : String
  content : String
  specific_changes : Option (List String)
deriving DecidableEq, Repr

/-- The `ConversationState` model of `models.py` (the free-form
`user_preferences` dict is omitted: nothing in the workflow reads or
writes it). -/
structure ConversationState where
  current_story : Option Story
  story_history : List Story
  feedback_history : List UserFeedback
  revision_count : Nat
deriving DecidableEq, Repr

/-- The fields of the graph's `WorkflowState` read and written by the
REVISE node.  The node is reached only along the edges
`evaluate_story → revise_story` and `process_feedback → revise_story`,
both of which run after GENERATE and EVALUATE have populated the current
story and evaluation, so those fields are non-optional here. -/
structure ReviseNodeState where
  current_story : Story
  evaluation : JudgeEvaluation
  user_feedback : Option String
  revision_count : Nat
  conversation_state : ConversationState
deriving DecidableEq, Repr

/-- Python truthiness of an optional string: `None` and `""` are falsy. -/
def pyTruthy : Option String → Bool
  | none => false
  | some s => s ≠ ""

/-- Lines 170-176 of `story_workflow.py`: the guidance handed to
`Storyteller.revise` — the user feedback marked with a `"User feedback: "`
prelude when (truthily) present, the judge's guidance otherwise. -/
def revise_guidance_text (user_feedback : Option String)
    (evaluation : JudgeEvaluation) : String :=
  if pyTruthy user_feedback then "User feedback: " ++ user_feedback.getD ""
  else generate_revision_guidance evaluation

/-- Embedding of `StoryWorkflow._revise_story`, parameterized by the storyteller's
revise call (itself a model interaction): computes the guidance, revises
the story, appends the pre-revision story to the session history,
increments both revision counters, and clears the pending feedback. -/
def revise_story_node (reviseFn : Story → String → Story)
    (state : ReviseNodeState) : ReviseNodeState :=
  let revision_guidance := revise_guidance_text state.user_feedback state.evaluation
  let revised_story := reviseFn state.current_story revision_guidance
  { current_story := revised_story,
    evaluation := state.evaluation,
    user_feedback := none,
    revision_count := state.revision_count + 1,
    conversation_state := { state.conversation_state with
      story_history := state.conversation_state.story_history ++ [state.current_story],
      revision_count := state.conversation_state.revision_count + 1 } }

/-- A concrete story for the workflow examples. -/
def sampleStory : Story :=
  { title := "The Sleepy Dragon", content := "Once upon a time a dragon slept.",
    category := StoryCategory.magical, age_appropriate := true,
    moral_lesson := some "Rest matters.", characters := ["dragon"] }

/-- A concrete evaluation for the workflow examples. -/
def sampleEvaluation : JudgeEvaluation :=
  { overall_score := 8, age_appropriateness := 9, engagement_level := 8,
    educational_value := 8, creativity := 7, strengths := ["clear arc"],
    areas_for_improvement := [], suggestions := [], needs_revision := false }

/-- A REVISE-node state carrying pending user feedback. -/
def sampleReviseState : ReviseNodeState :=
  { current_story := sampleStory, evaluation := sampleEvaluation,
    user_feedback := some "make it longer", revision_count := 0,
    conversation_state :=
      { current_story := some sampleStory,
        story_history := [], feedback_history := [], revision_count := 0 } }

/-- Counterexample to C4 as stated: with pending user feedback
`"make it longer"`, the text handed to `Storyteller.revise` is
`"User feedback: make it longer"`, not the literal feedback text (shown
by a revise function that records its guidance argument). -/
theorem revise_story_node_guidance_marked :
    revise_guidance_text (some "make it longer") sampleEvaluation =
      "User feedback: make it longer" ∧
    ("User feedback: make it longer" : String) ≠ "make it longer" ∧
    (revise_story_node (fun _ guidance => { sampleStory with title := guidance })
      sampleReviseState).current_story.title = "User feedback: make it longer" := by
  refine ⟨by decide, by decide, by decide⟩

/-- C4 (amended): every REVISE step increments both revision counters by
exactly 1, appends the pre-revision story to the history, and passes to
`Storyteller.revise` the judge's guidance, or, when non-empty user
feedback is present, the feedback text preluded with `"User feedback: "`,
which takes priority over the judge guidance. -/
theorem revise_story_node_spec (reviseFn : Story → String → Story)
    (state : ReviseNodeState) :
    (revise_story_node reviseFn state).revision_count =
      state.revision_count + 1 ∧
    (revise_story_node reviseFn state).conversation_state.revision_count =
      state.conversation_state.revision_count + 1 ∧
    (revise_story_node reviseFn state).conversation_state.story_history =
      state.conversation_state.story_history ++ [state.current_story] ∧
    (revise_story_node reviseFn state).current_story =
      reviseFn state.current_story
        (revise_guidance_text state.user_feedback state.evaluation) ∧
    (∀ feedback, state.user_feedback = some feedback → feedback ≠ "" →
      revise_guidance_text state.user_feedback state.evaluation =
        "User feedback: " ++ feedback) ∧
    (state.user_feedback = none →
      revise_guidance_text state.user_feedback state.evaluation =
        generate_revision_guidance state.evaluation) := by
  refine ⟨rfl, rfl, rfl, rfl, ?_, ?_⟩
  · intro feedback hf hne
    simp [revise_guidance_text, pyTruthy, hf, hne]
  · intro hn
    simp [revise_guidance_text, pyTruthy, hn]

/-- A REVISE-node state for the C4 witness. -/
def witnessReviseState : ReviseNodeState :=
  { current_story := sampleStory, evaluation := sampleEvaluation,
    user_feedback := some "add a dragon", revision_count := 1,
    conversation_state :=
      { current_story := some sampleStory,
        story_history := [sampleStory], feedback_history := [],
        revision_count := 1 } }

/-- Witness for C4: at a concrete state with pending feedback
`"add a dragon"`, the counter increments and the marked feedback is the
guidance. -/
theorem revise_story_node_spec_witness :
    (revise_story_node (fun story _ => story) witnessReviseState).revision_count = 2 ∧
    revise_guidance_text (some "add a dragon") sampleEvaluation =
      "User feedback: " ++ "add a dragon" :=
  ⟨(revise_story_node_spec (fun story _ => story) witnessReviseState).1,
    (revise_story_node_spec (fun story _ => story)
      witnessReviseState).2.2.2.2.1 "add a dragon" rfl (by decide)⟩

/-! ## Judge evaluation parsing (`judge.py` lines 29-106)

`evaluate_story` consumes the model's text through `json.loads`; the
embedding starts from that parse outcome: `none` models a
`json.JSONDecodeError` (non-JSON text), `some j` a successful parse into
the JSON value `j` (numbers restricted to the integers, the only numerals
relevant here; objects carry distinct keys, as parsed Python dicts do).
The `except` clause catches exactly `json.JSONDecodeError` and `KeyError`,
so a missing required key yields the fallback, while a pydantic
`ValidationError` (a score outside `[1,10]` or an ill-typed field) and the
`TypeError` from indexing a non-object both escape as `Except.error`. -/

/-- A parsed JSON value. -/
inductive Json where
  | null
  | bool (b : Bool)
  | num (n : Int)
  | str (s : String)
  | arr (elements : List Json)
  | obj (entries : List (String × Json))

/-- Dict lookup on a parsed object's entries. -/
def jLookup : List (String × Json) → String → Option Json
  | [], _ => none
  | (k, v) :: rest, key => if k = key then some v else jLookup rest key

/-- Embedding of `JudgeAgent._fallback_evaluation` (judge.py lines 94-106): the fixed
evaluation substituted on parse failure. -/
def fallback_evaluation : JudgeEvaluation :=
  { overall_score := 7, age_appropriateness := 8, engagement_level := 7,
    educational_value := 7, creativity := 6,
    strengths := ["Story has a clear structure", "Age-appropriate content"],
    areas_for_improvement := ["Could use more vivid descriptions",
      "Character development could be enhanced"],
    suggestions := ["Add more sensory details", "Include more character emotions"],
    needs_revision := false }

/-- Pydantic validation of a score field (`Field(ge=1, le=10)` on an
`int` field of `JudgeEvaluation`). -/
def validateScore (j : Json) : Except String Int :=
  match j with
  | Json.num n => if 1 ≤ n ∧ n ≤ 10 then Except.ok n else Except.error "ValidationError"
  | _ => Except.error "ValidationError"

/-- Pydantic validation of a `List[str]` field. -/
def validateStringList (j : Json) : Except String (List String) :=
  match j with
  | Json.arr elements => elements.mapM (fun element =>
      match element with
      | Json.str s => Except.ok s
      | _ => Except.error "ValidationError")
  | _ => Except.error "ValidationError"

/-- Pydantic validation of the `bool` field. -/
def validateFlag (j : Json) : Except String Bool :=
  match j with
  | Json.bool b => Except.ok b
  | _ => Except.error "ValidationError"

/-- The `JudgeEvaluation(...)` constructor call (judge.py lines 78-88):
pydantic validates every field, raising `ValidationError` when any fails. -/
def buildEvaluation (o a e d c st ar su nr : Json) :
    Except String JudgeEvaluation :=
  match validateScore o, validateScore a, validateScore e, validateScore d,
    validateScore c, validateStringList st, validateStringList ar,
    validateStringList su, validateFlag nr with
  | Except.ok o, Except.ok a, Except.ok e, Except.ok d, Except.ok c,
    Except.ok st, Except.ok ar, Except.ok su, Except.ok nr =>
    Except.ok
      { overall_score := o, age_appropriateness := a,
        engagement_level := e, educational_value := d, creativity := c,
        strengths := st, areas_for_improvement := ar, suggestions := su,
        needs_revision := nr }
  | _, _, _, _, _, _, _, _, _ => Except.error "ValidationError"

/-- Embedding of `JudgeAgent.evaluate_story` after the model call: key accesses happen
in the order of the constructor's arguments, the first missing key raises
`KeyError` (caught, yielding the fallback); indexing a non-object JSON
value raises `TypeError` (uncaught); field validation happens afterwards
in the constructor (uncaught `ValidationError`). -/
def evaluate_story (parsed : Option Json) : Except String JudgeEvaluation :=
  match parsed with
  | none => Except.ok fallback_evaluation
  | some (Json.obj entries) =>
    match jLookup entries "overall_score" with
    | none => Except.ok fallback_evaluation
    | some o =>
      match jLookup entries "age_appropriateness" with
      | none => Except.ok fallback_evaluation
      | some a =>
        match jLookup entries "engagement_level" with
        | none => Except.ok fallback_evaluation
        | some e =>
          match jLookup entries "educational_value" with
          | none => Except.ok fallback_evaluation
          | some d =>
            match jLookup entries "creativity" with
            | none => Except.ok fallback_evaluation
            | some c =>
              match jLookup entries "strengths" with
              | none => Except.ok fallback_evaluation
              | some st =>
                match jLookup entries "areas_for_improvement" with
                | none => Except.ok fallback_evaluation
                | some ar =>
                  match jLookup entries "suggestions" with
                  | none => Except.ok fallback_evaluation
                  | some su =>
                    match jLookup entries "needs_revision" with
                    | none => Except.ok fallback_evaluation
                    | some nr => buildEvaluation o a e d c st ar su nr
  | some _ => Except.error "TypeError"

theorem validateScore_ok {j : Json} {n : Int}
    (h : validateScore j = Except.ok n) : 1 ≤ n ∧ n ≤ 10 := by
  cases j with
  | num m =>
    simp only [validateScore] at h
    split_ifs at h with hb
    injection h with h2
    omega
  | null => simp [validateScore] at h
  | bool b => simp [validateScore] at h
  | str s => simp [validateScore] at h
  | arr elements => simp [validateScore] at h
  | obj entries => simp [validateScore] at h

theorem buildEvaluation_ok {o a e d c st ar su nr : Json}
    {evaluation : JudgeEvaluation}
    (h : buildEvaluation o a e d c st ar su nr = Except.ok evaluation) :
    (1 ≤ evaluation.overall_score ∧ evaluation.overall_score ≤ 10) ∧
    (1 ≤ evaluation.age_appropriateness ∧ evaluation.age_appropriateness ≤ 10) ∧
    (1 ≤ evaluation.engagement_level ∧ evaluation.engagement_level ≤ 10) ∧
    (1 ≤ evaluation.educational_value ∧ evaluation.educational_value ≤ 10) ∧
    (1 ≤ evaluation.creativity ∧ evaluation.creativity ≤ 10) := by
  unfold buildEvaluation at h
  split at h
  · rename_i vo va ve vd vc vst var vsu vnr ho ha he hd hc hst har hsu hnr
    simp only [Except.ok.injEq] at h
    subst h
    exact ⟨validateScore_ok ho, validateScore_ok ha, validateScore_ok he,
      validateScore_ok hd, validateScore_ok hc⟩
  · simp at h

/-- Valid JSON carrying every required key but an out-of-range
`overall_score` of 15 (the parse of the text
`{"overall_score": 15, ..., "needs_revision": false}`). -/
def outOfRangeEvaluationJson : Json :=
  Json.obj [("overall_score", Json.num 15),
    ("age_appropriateness", Json.num 8), ("engagement_level", Json.num 7),
    ("educational_value", Json.num 7), ("creativity", Json.num 6),
    ("strengths", Json.arr [Json.str "clear"]),
    ("areas_for_improvement", Json.arr []), ("suggestions", Json.arr []),
    ("needs_revision", Json.bool false)]

/-- Counterexample to C3 as stated: `evaluate_story` does not return an
Evaluation for every response — on well-formed JSON with all required
keys but `overall_score = 15`, the pydantic bound `le=10` fails and the
resulting `ValidationError` is not caught (the `except` clause catches
only `json.JSONDecodeError` and `KeyError`), so the call raises instead
of returning. -/
theorem evaluate_story_raises_out_of_range :
    evaluate_story (some outOfRangeEvaluationJson) =
      Except.error "ValidationError" := rfl

/-- C3 (amended): `evaluate_story` substitutes exactly the fixed fallback
Evaluation on the caught parse failures — non-JSON text, and valid JSON
objects missing the `overall_score` key — and every Evaluation it does
return has its five scores in [1,10]; but valid JSON whose shape fails
pydantic validation (such as a score outside [1,10]) makes it raise
rather than return. -/
theorem evaluate_story_parse_fallback :
    (evaluate_story none = Except.ok fallback_evaluation) ∧
    (∀ entries, jLookup entries "overall_score" = none →
      evaluate_story (some (Json.obj entries)) = Except.ok fallback_evaluation) ∧
    (∀ (parsed : Option Json) (evaluation : JudgeEvaluation),
      evaluate_story parsed = Except.ok evaluation →
      (1 ≤ evaluation.overall_score ∧ evaluation.overall_score ≤ 10) ∧
      (1 ≤ evaluation.age_appropriateness ∧ evaluation.age_appropriateness ≤ 10) ∧
      (1 ≤ evaluation.engagement_level ∧ evaluation.engagement_level ≤ 10) ∧
      (1 ≤ evaluation.educational_value ∧ evaluation.educational_value ≤ 10) ∧
      (1 ≤ evaluation.creativity ∧ evaluation.creativity ≤ 10)) := by
  refine ⟨rfl, ?_, ?_⟩
  · intro entries h
    simp only [evaluate_story, h]
  · intro parsed evaluation h
    match parsed with
    | none =>
      injection h with h2
      subst h2
      decide
    | some (Json.null) => exact absurd h (by simp [evaluate_story])
    | some (Json.bool b) => exact absurd h (by simp [evaluate_story])
    | some (Json.num n) => exact absurd h (by simp [evaluate_story])
    | some (Json.str s) => exact absurd h (by simp [evaluate_story])
    | some (Json.arr elements) => exact absurd h (by simp [evaluate_story])
    | some (Json.obj entries) =>
      simp only [evaluate_story] at h
      repeat' split at h
      all_goals
        first
        | exact buildEvaluation_ok h
        | (injection h with h2; subst h2; decide)

/-- Witness for C3: a JSON object missing `overall_score` yields exactly
the fallback Evaluation, whose five scores are in [1,10]. -/
theorem evaluate_story_parse_fallback_witness :
    evaluate_story (some (Json.obj [("strengths", Json.arr [])])) =
      Except.ok fallback_evaluation ∧
    (1 ≤ fallback_evaluation.overall_score ∧
      fallback_evaluation.overall_score ≤ 10) ∧
    (1 ≤ fallback_evaluation.age_appropriateness ∧
      fallback_evaluation.age_appropriateness ≤ 10) ∧
    (1 ≤ fallback_evaluation.engagement_level ∧
      fallback_evaluation.engagement_level ≤ 10) ∧
    (1 ≤ fallback_evaluation.educational_value ∧
      fallback_evaluation.educational_value ≤ 10) ∧
    (1 ≤ fallback_evaluation.creativity ∧ fallback_evaluation.creativity ≤ 10) :=
  ⟨evaluate_story_parse_fallback.2.1 [("strengths", Json.arr [])] rfl,
    evaluate_story_parse_fallback.2.2 none fallback_evaluation rfl⟩
